import Mathlib

/-!
Shallow embedding of the Eqiva Smart Radiator Thermostat codebase
(protocol value types, frame codec, scanner/resolver and fleet
controller), together with theorems settling the specification's
claims against it.

Conventions used throughout:
* Python `int` arithmetic is embedded as `ℤ` (or `ℕ` where the source
  value is a byte, i.e. an element of a `bytearray`).
* Python `float` values in this codebase are only ever integer
  multiples of `0.5` times small magnitudes, all exactly representable
  in binary floating point, so they are embedded as `ℚ`.
* Code that can raise is embedded with `Except String`; the string
  carries the exception kind or message.
-/

deriving instance DecidableEq for Except

namespace Eqiva

/-- Python `int(x)` applied to a rational: truncation toward zero.
`Int.div` is T-division (rounds toward zero), and `q.num.tdiv q.den`
truncates the fraction toward zero. -/
def pyTrunc (q : ℚ) : ℤ := q.num.tdiv q.den

/-- Python `//` (floor division). Every divisor used in this codebase
is positive, and for a positive divisor floor division coincides with
Euclidean division, which is what `/` on `ℤ` (`Int.ediv`) computes. -/
def pyDiv (a b : ℤ) : ℤ := a / b

/-- Python `%`. Every modulus used in this codebase is positive, and
for a positive modulus Python's remainder coincides with the Euclidean
remainder, which is what `%` on `ℤ` (`Int.emod`) computes. -/
def pyMod (a b : ℤ) : ℤ := a % b

/-! ## Temperature (`utils/Temperature.py`) -/

structure Temperature where
  valueC : ℚ
deriving DecidableEq

/-- The `Temperature.__init__` rejection test
`valueC < -4.5 or valueC > 30.0 or valueC * 10 % 5 != 0`.
For the exactly-representable floats at stake, `valueC * 10 % 5 == 0`
holds precisely when `valueC` is an integer multiple of `0.5`, i.e.
when `2 * valueC` has denominator 1. -/
def Temperature.invalidC (q : ℚ) : Bool :=
  decide (q < -9/2) || decide (q > 30) || decide ((2 * q).den ≠ 1)

def Temperature.errMsg : String :=
  "valueC must be between -4.5 and 30.0 in steps of 0.5. Offset temperature can be between -4.5 and 4.5. All other temperatures must be between 4.5 and 30.0"

/-- `Temperature.__init__` with a non-`None` argument: validates, then
stores `valueC`. -/
def Temperature.make (valueC : ℚ) : Except String Temperature :=
  if Temperature.invalidC valueC then .error Temperature.errMsg
  else .ok ⟨valueC⟩

/-- `Temperature.fromByte`: `t.valueC = raw / 2`, with no validation. -/
def Temperature.fromByte (raw : ℤ) : Temperature := ⟨(raw : ℚ) / 2⟩

/-- `Temperature.toByte`: `int(self.valueC * 2)`. -/
def Temperature.toByte (t : Temperature) : ℤ := pyTrunc (t.valueC * 2)

/-! ## Mode (`utils/Mode.py`) -/

structure Mode where
  mode : ℕ
deriving DecidableEq

def Mode.MANUAL : ℕ := 0x01

def Mode.MODES : List String :=
  ["AUTO", "MANUAL", "VACATION", "BOOST", "DAYLIGHT_SUMMER_TIME",
   "OPEN_WINDOW", "LOCKED", "UNKNOWN", "BATTERY_LOW"]

/-- `Mode.to_dict`: the label list derived from the status byte.
`AUTO` (`MODES[0]`) is included exactly when the `MANUAL` bit is clear;
every other label is included when its bit (`2**i` over
`enumerate(MODES[1:])`) is set. -/
def Mode.to_dict (m : Mode) : List String :=
  (if m.mode &&& Mode.MANUAL ≠ Mode.MANUAL then [Mode.MODES.get ⟨0, by decide⟩] else []) ++
    (((Mode.MODES.drop 1).enum.filter
      (fun p => m.mode &&& 2 ^ p.1 == 2 ^ p.1)).map Prod.snd)

end Eqiva

namespace Eqiva

/-! ## Event (`eqiva_thermostat/utils/Event.py`) -/

structure Event where
  temperature : Temperature
  hour : ℤ
  minute : ℤ
deriving DecidableEq

/-- The `Event.__init__` rejection test
`hour < 0 or hour > 24 or minute < 0 or minute > 50 or minute % 10 != 0`. -/
def Event.invalidHM (hour minute : ℤ) : Bool :=
  decide (hour < 0) || decide (hour > 24) || decide (minute < 0) ||
    decide (minute > 50) || decide (pyMod minute 10 ≠ 0)

def Event.make (temperature : Temperature) (hour minute : ℤ) : Except String Event :=
  if Event.invalidHM hour minute then
    .error "hour must be between 0 and 24. minute must be between 0 and 50 in steps of 10"
  else .ok ⟨temperature, hour, minute⟩

/-- `Event.fromBytes` on a two-byte slot `[b0, b1]`:
temperature from `b0`, `hour = b1 // 6`, `minute = b1 % 6 * 10`
(byte values are natural numbers, so `//` and `%` are `Nat` operations),
then the validating constructor. -/
def Event.fromBytes (b0 b1 : ℕ) : Except String Event :=
  Event.make (Temperature.fromByte b0) ((b1 / 6 : ℕ) : ℤ) ((b1 % 6 * 10 : ℕ) : ℤ)

/-- `Event.toBytes`: `[self.temperature.toByte(), self.hour * 6 + self.minute // 10]`.
The entries are integers; turning them into an actual `bytearray` (which
requires the range `[0, 256)`) happens in `bytearray?` below. -/
def Event.toBytes (e : Event) : List ℤ :=
  [e.temperature.toByte, e.hour * 6 + pyDiv e.minute 10]

/-! ## Program (`eqiva_thermostat/utils/Program.py`) -/

structure Program where
  events : List Event
deriving DecidableEq

def Program.make (events : List Event) : Except String Program :=
  if events = [] then .error "No events given"
  else if events.length > 7 then
    .error "More than 7 events given but maximum is 7 events per day"
  else .ok ⟨events⟩

/-- The loop of `Program.fromBytes`:
`for i in range(7): events.append(Event.fromBytes(bytes[i * 2: i * 2 + 2]))`
reads `n` consecutive two-byte slots; a slot with fewer than two bytes
left is an `IndexError` inside `Event.fromBytes`. -/
def readEvents : ℕ → List ℕ → Except String (List Event)
  | 0, _ => .ok []
  | n + 1, b0 :: b1 :: rest => do
      let e ← Event.fromBytes b0 b1
      let es ← readEvents n rest
      .ok (e :: es)
  | _ + 1, _ => .error "IndexError"

/-- `Program.fromBytes`: always reads exactly 7 two-byte `Event` slots,
then the validating constructor. -/
def Program.fromBytes (bs : List ℕ) : Except String Program := do
  Program.make (← readEvents 7 bs)

/-- The byte list built by `Program.toBytes` before the final
`bytearray(...)` call: the events' bytes, zero-padded to 14. -/
def Program.toBytesRaw (p : Program) : List ℤ :=
  let bytes := (p.events.map Event.toBytes).flatten
  bytes ++ List.replicate (14 - bytes.length) 0

/-- Python `bytearray(list_of_ints)`: every entry must lie in `[0, 256)`,
otherwise a `ValueError` is raised. -/
def bytearrayOf (l : List ℤ) : Except String (List ℕ) :=
  if l.all (fun b => decide (0 ≤ b) && decide (b < 256)) then .ok (l.map Int.toNat)
  else .error "ValueError"

/-- `Program.toBytes`: the padded byte list as an actual `bytearray`. -/
def Program.toBytes (p : Program) : Except String (List ℕ) :=
  bytearrayOf p.toBytesRaw

end Eqiva

namespace Eqiva

/-! ## Python `datetime` (as used by `eqiva/Vacation.py`) -/

/-- The fields of a Python `datetime` that this codebase reads or
writes. `microsecond` is always zero on every value the code builds
from bytes and plays the same role as `second`, so it is omitted. -/
structure PyDateTime where
  year : ℕ
  month : ℕ
  day : ℕ
  hour : ℕ
  minute : ℕ
  second : ℕ
deriving DecidableEq

def isLeapYear (y : ℕ) : Bool :=
  y % 4 == 0 && (y % 100 != 0 || y % 400 == 0)

def daysInMonth (y m : ℕ) : ℕ :=
  if m == 2 then (if isLeapYear y then 29 else 28)
  else if m == 4 || m == 6 || m == 9 || m == 11 then 30
  else 31

/-- The validation performed by the `datetime(...)` constructor
(`MINYEAR = 1`, `MAXYEAR = 9999`, real month lengths). -/
def PyDateTime.valid (d : PyDateTime) : Bool :=
  decide (1 ≤ d.year) && decide (d.year ≤ 9999) &&
  decide (1 ≤ d.month) && decide (d.month ≤ 12) &&
  decide (1 ≤ d.day) && decide (d.day ≤ daysInMonth d.year d.month) &&
  decide (d.hour ≤ 23) && decide (d.minute ≤ 59) && decide (d.second ≤ 59)

/-- Python `datetime(day=..., month=..., year=..., hour=..., minute=...)`:
validates, with `second` defaulting to 0 where the caller omits it. -/
def PyDateTime.make (year month day hour minute second : ℕ) :
    Except String PyDateTime :=
  if PyDateTime.valid ⟨year, month, day, hour, minute, second⟩ then
    .ok ⟨year, month, day, hour, minute, second⟩
  else .error "ValueError"

/-- `until - timedelta(minutes=until.minute % 30)`: the subtrahend
`until.minute % 30` never exceeds the minute field, so the subtraction
only lowers the minute field and touches nothing else (in particular
the seconds survive). -/
def floorMinutes (d : PyDateTime) : PyDateTime :=
  { d with minute := d.minute - d.minute % 30 }

/-! ## Vacation (`eqiva/Vacation.py`) -/

/-- `Vacation`: the optional end timestamp `self.until` (field renamed
`until_` because `until` is a Lean keyword). -/
structure Vacation where
  until_ : Option PyDateTime
deriving DecidableEq

/-- `Vacation.__init__`: stores
`(until - timedelta(minutes=until.minute % 30)) if until else None`. -/
def Vacation.make (until_ : Option PyDateTime) : Vacation :=
  ⟨until_.map floorMinutes⟩

/-- `Vacation.toBytes`:
`bytearray([day, year - 2000, hour * 2 + minute // 30, month])`.
On a `Vacation` without an end timestamp the attribute access
`self.until.day` raises (`AttributeError` on `None`); a year before
2000 makes `year - 2000` negative and the `bytearray` call raise. -/
def Vacation.toBytes (v : Vacation) : Except String (List ℕ) :=
  match v.until_ with
  | none => .error "AttributeError"
  | some d =>
      bytearrayOf [(d.day : ℤ), (d.year : ℤ) - 2000,
        ((d.hour * 2 + d.minute / 30 : ℕ) : ℤ), (d.month : ℤ)]

/-- `Vacation.fromBytes` on the four-byte slice `[b0, b1, b2, b3]`:
a zero day byte yields no end timestamp, otherwise
`datetime(day=b0, month=b3, year=2000 + b1, hour=b2 // 2, minute=b2 % 2 * 30)`. -/
def Vacation.fromBytes (b0 b1 b2 b3 : ℕ) : Except String Vacation :=
  if b0 > 0 then do
    let d ← PyDateTime.make (2000 + b1) b3 b0 (b2 / 2) (b2 % 2 * 30) 0
    .ok ⟨some d⟩
  else .ok ⟨none⟩

end Eqiva

namespace Eqiva

/-! ## OpenWindowConfig (`utils/OpenWindowConfig.py`) -/

/-- `OpenWindowConfig`. The `__init__` default `temperature=None` is
only ever observable transiently inside `fromBytes`, which assigns
both fields before returning, so the field is embedded as a plain
`Temperature`. -/
structure OpenWindowConfig where
  temperature : Temperature
  minutes : ℤ
deriving DecidableEq

/-- `OpenWindowConfig.fromBytes` on the two-byte slice `[b0, b1]`:
`temperature = Temperature.fromByte(bytes[0])`, `minutes = bytes[1] * 5`. -/
def OpenWindowConfig.fromBytes (b0 b1 : ℕ) : OpenWindowConfig :=
  ⟨Temperature.fromByte b0, ((b1 * 5 : ℕ) : ℤ)⟩

/-! ## Device state and notification decoding
(`eqiva_thermostat/utils/Thermostat.py`) -/

/-- The per-device attributes `Thermostat.__init__` creates (the
domain state; the BLE-transport attributes inherited from
`BleakClient` are modelled separately by `Session`). `serialNumber`
holds the code points of the decoded string. -/
structure DeviceState where
  serialNumber : Option (List ℕ) := none
  firmware : Option ℚ := none
  mode : Option Mode := none
  valve : Option ℕ := none
  temperature : Option Temperature := none
  vacation : Option Vacation := none
  programs : List (Option Program) := List.replicate 7 none
  ecoTemperature : Option Temperature := none
  comfortTemperature : Option Temperature := none
  openWindowConfig : Option OpenWindowConfig := none
  offsetTemperature : Option Temperature := none
deriving DecidableEq

def NOTIFY_SERIAL : List ℕ := [0x01]
def NOTIFY_STATUS : List ℕ := [0x02, 0x01]
def NOTIFY_PROGRAM_CONFIRM : List ℕ := [0x02, 0x02]
def NOTIFY_PROGRAM_REQUEST : List ℕ := [0x21]

/-- `bytearray.startswith` / `str.startswith`, over element lists. -/
def startsWith {α : Type} [BEq α] : List α → List α → Bool
  | _, [] => true
  | [], _ :: _ => false
  | a :: as, b :: bs => a == b && startsWith as bs

/-- Python `bytes[i]`: `IndexError` when out of range. -/
def nth (l : List ℕ) (i : ℕ) : Except String ℕ :=
  match l[i]? with
  | some b => .ok b
  | none => .error "IndexError"

/-- `Thermostat.onNotify`: decodes one notification frame into an
updated device state, dispatching on the frame prefix in source order
(`SERIAL`, `STATUS`, `PROGRAM_REQUEST`, `PROGRAM_CONFIRM`); an
unrecognized prefix leaves the state unchanged. The Python method
mutates `self` field by field, so a branch that raises half-way leaves
its earlier assignments behind; this embedding returns either the
fully-updated state or the error, which agrees with the source on
every non-raising run (the runs the claims are about). -/
def Thermostat.onNotify (st : DeviceState) (bytes : List ℕ) :
    Except String DeviceState :=
  if startsWith bytes NOTIFY_SERIAL then do
    -- serialNumber = bytearray([b - 0x30 for b in bytes[4:-1]]).decode()
    -- firmware = bytes[1] / 100  (true division: a float)
    let serial ← bytearrayOf (((bytes.drop 4).dropLast).map (fun b => (b : ℤ) - 0x30))
    let b1 ← nth bytes 1
    .ok { st with serialNumber := some serial, firmware := some ((b1 : ℚ) / 100) }
  else if startsWith bytes NOTIFY_STATUS then do
    let b2 ← nth bytes 2
    let b3 ← nth bytes 3
    let b5 ← nth bytes 5
    let vac ← if bytes.length > 9 then do
        let b6 ← nth bytes 6
        let b7 ← nth bytes 7
        let b8 ← nth bytes 8
        let b9 ← nth bytes 9
        let v ← Vacation.fromBytes b6 b7 b8 b9
        pure (some v)
      else pure none
    if bytes.length == 15 then do
      let b10 ← nth bytes 10
      let b11 ← nth bytes 11
      let b12 ← nth bytes 12
      let b13 ← nth bytes 13
      let b14 ← nth bytes 14
      .ok { st with mode := some ⟨b2⟩, valve := some b3,
                    temperature := some (Temperature.fromByte b5),
                    vacation := vac,
                    openWindowConfig := some (OpenWindowConfig.fromBytes b10 b11),
                    comfortTemperature := some (Temperature.fromByte b12),
                    ecoTemperature := some (Temperature.fromByte b13),
                    offsetTemperature := some (Temperature.fromByte ((b14 : ℤ) - 7)) }
    else
      -- "outdated firmware detected": the four optional fields are
      -- assigned None, decided purely by the frame length test
      .ok { st with mode := some ⟨b2⟩, valve := some b3,
                    temperature := some (Temperature.fromByte b5),
                    vacation := vac,
                    openWindowConfig := none,
                    comfortTemperature := none,
                    ecoTemperature := none,
                    offsetTemperature := none }
  else if startsWith bytes NOTIFY_PROGRAM_REQUEST then do
    let day ← nth bytes 1
    let prog ← Program.fromBytes (bytes.drop 2)
    -- self.programs[day] = program  (IndexError when day ≥ 7)
    if day < 7 then .ok { st with programs := st.programs.set day (some prog) }
    else .error "IndexError"
  else if startsWith bytes NOTIFY_PROGRAM_CONFIRM then do
    -- the branch only logs, but reads Program.DAYS[bytes[2]] doing so
    let b2 ← nth bytes 2
    if b2 < 12 then .ok st else .error "IndexError"
  else .ok st

end Eqiva

namespace Eqiva

/-! ## Errors, sessions, `asyncio.gather`
(`utils/ThermostatController.py` and its collaborators) -/

/-- The exceptions that cross the controller boundary: this codebase's
own `EqivaException` (carrying a message) and the BLE library's
`BleakError` for transport failures (the spec's `TransportError`). -/
inductive PyError
  | eqivaException (message : String)
  | bleakError (message : String)
deriving DecidableEq

/-- One per-device session (`Thermostat`, a `BleakClient` subclass) as
the controller sees it: its address and the transport's `is_connected`
flag. The domain `DeviceState` it owns is independent of the
dispatching logic the controller claims are about. -/
structure Session where
  address : String
  is_connected : Bool
deriving DecidableEq

/-- `asyncio.gather(*coros)` with the default
`return_exceptions=False`: all tasks run, and the awaiting caller
receives either the list of results in input order or the first raised
exception (here: the error of the first failing entry). -/
def gather {ε α : Type} : List (Except ε α) → Except ε (List α)
  | [] => .ok []
  | .ok a :: rest => (gather rest).map (fun l => a :: l)
  | .error e :: _ => .error e

/-! ## Scanner/Resolver (`ThermostatController.scan`) -/

/-- A BLE advertisement's peripheral as seen by the scan callback. An
unnamed peripheral is modelled by an empty `name` (Python: a falsy
`device.name`). -/
structure BLEDevice where
  address : String
  name : String
deriving DecidableEq

def MAC_PREFIX : String := "00:1A:22:"

/-- Python `str.upper()`, embedded through the character list backing
the string (`String.toUpper` itself iterates over byte positions in a
way the kernel cannot reduce). -/
def pyUpper (s : String) : String := ⟨s.data.map Char.toUpper⟩

/-- The mutable state of the `callback` closure inside
`ThermostatController.scan`: the dedup set `found_devices`, the result
set `found_bulbs` (kept in discovery order), and the outstanding
target list `consumed_filter`. -/
structure ScanState where
  found_devices : List BLEDevice
  found_bulbs : List BLEDevice
  consumed : List String
deriving DecidableEq

/-- One invocation of the scan `callback` on an advertisement.
`filterNE` is the truthiness of the original `filter_` argument (the
`elif not filter_` test), while the inner `if consumed_filter and ...`
tests the current outstanding list. Python's
`device.address not in found_bulbs` compares a string against a set of
`BLEDevice` objects and is therefore vacuously true, so it is embedded
as no test at all. `consumed_filter.remove(x)` removes the first
occurrence, with `x` the address when the address matched, the name
otherwise. -/
def scanCallback (filterNE : Bool) (st : ScanState) (device : BLEDevice) :
    ScanState :=
  if !(st.found_devices.contains device) && device.name != "" then
    let st1 := { st with found_devices := device :: st.found_devices }
    if startsWith (pyUpper device.address).data MAC_PREFIX.data then
      if filterNE then
        if st1.consumed != [] then
          if st1.consumed.contains device.address || st1.consumed.contains device.name then
            { st1 with
              found_bulbs := st1.found_bulbs ++ [device],
              consumed := st1.consumed.erase
                (if st1.consumed.contains device.address then device.address
                 else device.name) }
          else st1
        else st1
      else
        { st1 with found_bulbs := st1.found_bulbs ++ [device] }
    else st1
  else st

/-- `ThermostatController.scan` over the advertisements delivered
within the scan's time budget (`ads`, in arrival order). The wall
clock is abstracted into that finite stream: the timed loop only
decides how many advertisements are processed, and once
`consumed_filter` is exhausted further advertisements cannot change
`found_bulbs` in filtered mode. Returns `found_bulbs`. -/
def ThermostatController.scan (filter_ : List String) (ads : List BLEDevice) :
    List BLEDevice :=
  (ads.foldl (scanCallback (filter_ != [])) ⟨[], [], filter_⟩).found_bulbs

/-! ## Fleet Controller (`ThermostatController`) -/

/-- `ThermostatController`: the target address list and the session
list (`self.thermostats`, empty at construction). -/
structure ThermostatController where
  addresses : List String
  thermostats : List Session
deriving DecidableEq

/-- `ThermostatController.__init__`. -/
def ThermostatController.init (addresses : List String) : ThermostatController :=
  ⟨addresses, []⟩

def resolutionErrMsg : String := "Could not find all given addresses"

/-- `ThermostatController.connect`, up to the point where per-session
BLE connects are launched: scan with the addresses as filter; if fewer
devices resolved than addresses were requested, raise `EqivaException`
(leaving `self.thermostats` untouched); otherwise create one session
per resolved device and connect them all. The per-session transport
connect itself is outside the controller (the claims settled here
concern the failure path, on which no session object is ever built).
Returns the post-state together with the raised exception, if any. -/
def ThermostatController.connect (c : ThermostatController)
    (ads : List BLEDevice) : ThermostatController × Option PyError :=
  let devices := ThermostatController.scan c.addresses ads
  if devices.length < c.addresses.length then
    (c, some (.eqivaException resolutionErrMsg))
  else
    ({ c with thermostats := devices.map (fun d => ⟨d.address, true⟩) }, none)

/-- The sessions a filtered fan-out dispatcher iterates — the list
comprehension `[...(thermostat) for thermostat in self.thermostats if
thermostat.is_connected]` shared verbatim by `setTemperature`,
`setTemperatureComfort/Eco/On/Off`, `setModeAuto/Manual`, `setBoost`,
`requestStatus`, `setVacation`, `requestProgram`, `setProgram`,
`setOffsetTemperature`, `setComfortEcoTemperature`, `setOpenWindow`,
`setLock`, `reset`, `requestSerialNo`, `requestName` and
`requestVendor`. -/
def ThermostatController.fanoutTargets (c : ThermostatController) :
    List Session :=
  c.thermostats.filter (fun t => t.is_connected)

/-- The sessions `requestDeviceInfo` iterates:
`for thermostat in self.thermostats:` — every session, with no
`is_connected` filter. -/
def ThermostatController.requestDeviceInfoTargets (c : ThermostatController) :
    List Session :=
  c.thermostats

/-- `ThermostatController.setTemperature` (the shape of every filtered
fan-out dispatcher): build one coroutine per still-connected session,
`await asyncio.gather(*coros)`, then `return self.thermostats`.
`outcome` supplies each session's send result, abstracting the BLE
transport: `.ok ()` models a successful `write_gatt_char`, `.error` a
raised `BleakError`/`EqivaException`. -/
def ThermostatController.setTemperature (c : ThermostatController)
    (outcome : Session → Except PyError Unit) : Except PyError (List Session) := do
  let _ ← gather (c.fanoutTargets.map outcome)
  .ok c.thermostats

/-! ## CLI entry point (`eqiva/ThermostatCLI.py`) -/

def MAX_BLE_CONNECTIONS : ℕ := 8

/-- What the tail of `ThermostatCLI.__init__` decides to do once
`parse_args` has produced the address and command lists. Scanning and
connecting happen only inside `asyncio.run(self.process(...))`, i.e.
only on the `processed` outcome. -/
inductive CLIOutcome
  | error (message : String)
  | processed (addresses : List String) (commands : List String)
  | noop
deriving DecidableEq

def capacityErrMsg (n : ℕ) : String :=
  "Too many simultaneous connections requested, i.e. max. 8 but requested " ++ toString n

/-- The dispatch at the tail of `ThermostatCLI.__init__`:
`if addresses and len(addresses) > _MAX_BLE_CONNECTIONS: raise ...`
`elif addresses and commands: asyncio.run(self.process(...))`
`elif not addresses: raise EqivaException("Mac address or alias unknown")`. -/
def ThermostatCLI.dispatch (addresses commands : List String) : CLIOutcome :=
  if addresses != [] && decide (addresses.length > MAX_BLE_CONNECTIONS) then
    .error (capacityErrMsg addresses.length)
  else if addresses != [] && commands != [] then
    .processed addresses commands
  else if addresses == [] then
    .error "Mac address or alias unknown"
  else .noop

end Eqiva

/-! # Helper lemmas -/

namespace Eqiva

lemma gather_all_ok {ε : Type} (l : List (Except ε Unit))
    (h : ∀ x ∈ l, x = .ok ()) :
    gather l = .ok (l.map fun _ => ()) := by
  induction l with
  | nil => rfl
  | cons x rest ih =>
      have hx := h x (List.mem_cons_self x rest)
      subst hx
      have := ih (fun y hy => h y (List.mem_cons_of_mem _ hy))
      simp [gather, this, Except.map]

lemma gather_first_error {ε α : Type} (pre : List (Except ε α)) (e : ε)
    (rest : List (Except ε α)) (h : ∀ x ∈ pre, ∃ a, x = .ok a) :
    gather (pre ++ .error e :: rest) = .error e := by
  induction pre with
  | nil => rfl
  | cons x pre ih =>
      obtain ⟨a, ha⟩ := h x (List.mem_cons_self x pre)
      subst ha
      have := ih (fun y hy => h y (List.mem_cons_of_mem _ hy))
      simp [gather, this, Except.map]

end Eqiva

/-! # Claims -/

namespace Eqiva

/-- C2, counterexample: the status byte `0x05` (`MANUAL | BOOST`) does
not decode to the list `["BOOST"]` claimed by the spec. -/
theorem mode_0x05_not_boost_only : Mode.to_dict ⟨0x05⟩ ≠ ["BOOST"] := by decide

/-- C2 (amended): byte `0x00` decodes to `["AUTO"]`; byte `0x01`
decodes to `["MANUAL"]`, a list without `AUTO`; byte `0x05`
(`MANUAL | BOOST`) decodes to `["MANUAL", "BOOST"]` — `AUTO` absent
because the `MANUAL` bit is set, `BOOST` present, and `MANUAL` itself
listed as well. -/
theorem mode_to_dict_decoding :
    Mode.to_dict ⟨0x00⟩ = ["AUTO"] ∧
    Mode.to_dict ⟨0x01⟩ = ["MANUAL"] ∧ "AUTO" ∉ Mode.to_dict ⟨0x01⟩ ∧
    Mode.to_dict ⟨0x05⟩ = ["MANUAL", "BOOST"] ∧
    "AUTO" ∉ Mode.to_dict ⟨0x05⟩ ∧ "BOOST" ∈ Mode.to_dict ⟨0x05⟩ := by decide

/-- C8: a batch of more than `MAX_BLE_CONNECTIONS = 8` addresses makes
the CLI entry point raise the capacity `EqivaException` and never
reach `process` (the only outcome under which a scan or connection
attempt happens). -/
theorem cli_capacity_cap (addresses commands : List String)
    (h : MAX_BLE_CONNECTIONS < addresses.length) :
    ThermostatCLI.dispatch addresses commands =
      .error (capacityErrMsg addresses.length) ∧
    ∀ a c, ThermostatCLI.dispatch addresses commands ≠ .processed a c := by
  have hne : addresses ≠ [] := by
    intro he
    rw [he] at h
    simp [MAX_BLE_CONNECTIONS] at h
  have hcond : (addresses != [] && decide (addresses.length > MAX_BLE_CONNECTIONS)) = true := by
    simp [bne_iff_ne, hne, h]
  refine ⟨?_, ?_⟩
  · simp only [ThermostatCLI.dispatch, hcond, if_true]
  · intro a c
    simp only [ThermostatCLI.dispatch, hcond, if_true]
    exact fun hcontra => CLIOutcome.noConfusion hcontra

/-- C8 witness at a batch of 9 addresses. -/
theorem cli_capacity_cap_witness :
    MAX_BLE_CONNECTIONS <
      (["1", "2", "3", "4", "5", "6", "7", "8", "9"] : List String).length ∧
    ThermostatCLI.dispatch ["1", "2", "3", "4", "5", "6", "7", "8", "9"] ["--temp"] =
      .error (capacityErrMsg
        (["1", "2", "3", "4", "5", "6", "7", "8", "9"] : List String).length) :=
  ⟨by decide,
   (cli_capacity_cap ["1", "2", "3", "4", "5", "6", "7", "8", "9"] ["--temp"] (by decide)).1⟩

/-- C10: `Temperature.fromByte` is total — it returns `raw / 2` for
every integer byte with no range or half-step validation — and it can
therefore produce values violating the constructor invariant, e.g.
byte 255 gives 127.5 °C, which `Temperature.__init__` rejects. -/
theorem temperature_fromByte_unvalidated :
    (∀ raw : ℤ, (Temperature.fromByte raw).valueC = (raw : ℚ) / 2) ∧
    Temperature.invalidC (Temperature.fromByte 255).valueC = true ∧
    Temperature.make (Temperature.fromByte 255).valueC = .error Temperature.errMsg := by
  have hinv : Temperature.invalidC (Temperature.fromByte 255).valueC = true := by
    norm_num [Temperature.invalidC, Temperature.fromByte]
  exact ⟨fun raw => rfl, hinv, by simp [Temperature.make, hinv]⟩

/-- C7: when the scan resolves fewer devices than addresses were
requested, `ThermostatController.connect` raises the resolution
`EqivaException` and opens no session: the controller keeps its empty
session list and never reaches the session-construction branch. -/
theorem connect_resolution_failure (c : ThermostatController)
    (ads : List BLEDevice) (hfresh : c.thermostats = [])
    (hshort : (ThermostatController.scan c.addresses ads).length < c.addresses.length) :
    ThermostatController.connect c ads =
      (c, some (.eqivaException resolutionErrMsg)) ∧
    (ThermostatController.connect c ads).1.thermostats = [] := by
  have h1 : ThermostatController.connect c ads =
      (c, some (.eqivaException resolutionErrMsg)) := by
    simp only [ThermostatController.connect]
    rw [if_pos hshort]
  exact ⟨h1, by rw [h1]; exact hfresh⟩

/-- C7 witness: three requested addresses, advertisements delivering
only two matching devices within the budget. -/
theorem connect_resolution_failure_witness :
    (ThermostatController.scan
        (ThermostatController.init
          ["00:1A:22:00:00:01", "00:1A:22:00:00:02", "00:1A:22:00:00:03"]).addresses
        [⟨"00:1A:22:00:00:01", "eq1"⟩, ⟨"00:1A:22:00:00:02", "eq2"⟩]).length <
      (ThermostatController.init
        ["00:1A:22:00:00:01", "00:1A:22:00:00:02", "00:1A:22:00:00:03"]).addresses.length ∧
    ThermostatController.connect
        (ThermostatController.init
          ["00:1A:22:00:00:01", "00:1A:22:00:00:02", "00:1A:22:00:00:03"])
        [⟨"00:1A:22:00:00:01", "eq1"⟩, ⟨"00:1A:22:00:00:02", "eq2"⟩] =
      (ThermostatController.init
        ["00:1A:22:00:00:01", "00:1A:22:00:00:02", "00:1A:22:00:00:03"],
       some (.eqivaException resolutionErrMsg)) :=
  ⟨by decide,
   (connect_resolution_failure _ _ (by decide) (by decide)).1⟩

/-- C9, counterexample: `requestDeviceInfo` iterates a session whose
`is_connected` flag is false, while the filtered dispatchers skip it —
so the claim that every per-command dispatcher (including
`requestDeviceInfo`, one of its cited sources) touches only
still-connected sessions fails. -/
theorem requestDeviceInfo_targets_disconnected :
    ThermostatController.requestDeviceInfoTargets ⟨["D"], [⟨"D", false⟩]⟩ =
      [⟨"D", false⟩] ∧
    (Session.mk "D" false).is_connected = false ∧
    ThermostatController.fanoutTargets ⟨["D"], [⟨"D", false⟩]⟩ = [] := by decide

/-- C9 (amended): every filtered fan-out dispatcher targets exactly
the sessions connected at call time (sessions that failed earlier are
skipped, not retried), but `requestDeviceInfo` iterates the full
session list with no connection filter. -/
theorem fanout_targets_connected_only :
    (∀ (c : ThermostatController) (s : Session),
        s ∈ c.fanoutTargets ↔ s ∈ c.thermostats ∧ s.is_connected = true) ∧
    (∀ c : ThermostatController, c.requestDeviceInfoTargets = c.thermostats) := by
  refine ⟨fun c s => ?_, fun c => rfl⟩
  simp [ThermostatController.fanoutTargets, List.mem_filter]

/-- C1, counterexample: three connected sessions, the second one's
send failing with a transport error — the fleet fan-out call itself
evaluates to that error (the exception escapes the controller and no
aggregated per-device result is returned). -/
theorem setTemperature_error_escapes :
    ThermostatController.setTemperature
      ⟨["A", "B", "C"], [⟨"A", true⟩, ⟨"B", true⟩, ⟨"C", true⟩]⟩
      (fun s => if s.address == "B" then .error (.bleakError "write failed")
                else .ok ()) =
      .error (.bleakError "write failed") := by decide

/-- C1 (amended): the fan-out returns the plain session list when
every connected session's send succeeds; when a connected session's
send raises, `asyncio.gather` (with its default
`return_exceptions=False`) re-raises that error out of the controller
call — per-device errors are not isolated into an aggregated
address→result map. -/
theorem setTemperature_first_error_propagates :
    (∀ (c : ThermostatController) (outcome : Session → Except PyError Unit),
        (∀ s ∈ c.fanoutTargets, outcome s = .ok ()) →
        ThermostatController.setTemperature c outcome = .ok c.thermostats) ∧
    (∀ (c : ThermostatController) (outcome : Session → Except PyError Unit)
        (pre post : List Session) (s : Session) (e : PyError),
        c.fanoutTargets = pre ++ s :: post →
        (∀ t ∈ pre, outcome t = .ok ()) →
        outcome s = .error e →
        ThermostatController.setTemperature c outcome = .error e) := by
  constructor
  · intro c outcome h
    have hg : gather (c.fanoutTargets.map outcome) =
        .ok (((c.fanoutTargets).map outcome).map fun _ => ()) := by
      apply gather_all_ok
      intro x hx
      obtain ⟨t, ht, rfl⟩ := List.mem_map.mp hx
      exact h t ht
    simp [ThermostatController.setTemperature, hg, Bind.bind, Except.bind]
  · intro c outcome pre post s e hsplit hpre hs
    have hg : gather (c.fanoutTargets.map outcome) = .error e := by
      rw [hsplit, List.map_append, List.map_cons, hs]
      apply gather_first_error
      intro x hx
      obtain ⟨t, ht, rfl⟩ := List.mem_map.mp hx
      exact ⟨(), hpre t ht⟩
    simp [ThermostatController.setTemperature, hg, Bind.bind, Except.bind]

/-- C1 witness for the amended statement: the concrete split of the
connected sessions around the failing one. -/
theorem setTemperature_first_error_propagates_witness :
    ThermostatController.setTemperature
      ⟨["A", "B", "C"], [⟨"A", true⟩, ⟨"B", true⟩, ⟨"C", true⟩]⟩
      (fun s => if s.address == "B" then .error (.bleakError "boom")
                else .ok ()) =
      .error (.bleakError "boom") :=
  setTemperature_first_error_propagates.2
    ⟨["A", "B", "C"], [⟨"A", true⟩, ⟨"B", true⟩, ⟨"C", true⟩]⟩
    (fun s => if s.address == "B" then .error (.bleakError "boom") else .ok ())
    [⟨"A", true⟩] [⟨"C", true⟩] ⟨"B", true⟩ (.bleakError "boom")
    (by decide) (by decide) (by decide)

end Eqiva

namespace Eqiva

/-- C4: valid temperatures (in range, half-degree steps) round-trip
through the byte form `int(valueC * 2)`, and construction succeeds on
exactly the values the rejection test accepts; on every invalid value
construction fails with the validation `EqivaException` and no byte
form is produced (the byte form only exists on constructed values). -/
theorem temperature_roundtrip (q : ℚ) :
    (Temperature.invalidC q = false →
        Temperature.make q = .ok ⟨q⟩ ∧
        Temperature.fromByte (Temperature.toByte ⟨q⟩) = ⟨q⟩) ∧
    (Temperature.invalidC q = true →
        Temperature.make q = .error Temperature.errMsg) := by
  constructor
  · intro h
    have hden : (2 * q).den = 1 := by
      by_contra hne
      have htrue : Temperature.invalidC q = true := by
        simp [Temperature.invalidC, hne]
      rw [htrue] at h
      exact Bool.noConfusion h
    have hden' : (q * 2).den = 1 := by rwa [mul_comm] at hden
    have hnum : ((q * 2).num : ℚ) = q * 2 :=
      Rat.coe_int_num_of_den_eq_one hden'
    have htb : Temperature.toByte ⟨q⟩ = (q * 2).num := by
      simp [Temperature.toByte, pyTrunc, hden', Int.tdiv_one]
    refine ⟨by simp [Temperature.make, h], ?_⟩
    rw [htb]
    simp only [Temperature.fromByte, Temperature.mk.injEq]
    rw [hnum]
    ring
  · intro h
    simp [Temperature.make, h]

/-- C4 witness: 7.5 °C is accepted and round-trips; 31 °C is rejected. -/
theorem temperature_roundtrip_witness :
    (Temperature.invalidC (15/2 : ℚ) = false ∧
      Temperature.make (15/2 : ℚ) = .ok ⟨15/2⟩ ∧
      Temperature.fromByte (Temperature.toByte ⟨15/2⟩) = ⟨15/2⟩) ∧
    (Temperature.invalidC (31 : ℚ) = true ∧
      Temperature.make (31 : ℚ) = .error Temperature.errMsg) :=
  ⟨⟨by norm_num [Temperature.invalidC],
    ((temperature_roundtrip (15/2)).1 (by norm_num [Temperature.invalidC])).1,
    ((temperature_roundtrip (15/2)).1 (by norm_num [Temperature.invalidC])).2⟩,
   ⟨by norm_num [Temperature.invalidC],
    (temperature_roundtrip 31).2 (by norm_num [Temperature.invalidC])⟩⟩

end Eqiva

namespace Eqiva

lemma daysInMonth_le (y m : ℕ) : daysInMonth y m ≤ 31 := by
  unfold daysInMonth
  split
  · split <;> omega
  · split <;> omega

lemma valid_facts (d : PyDateTime) (hv : d.valid = true) :
    1 ≤ d.year ∧ d.year ≤ 9999 ∧ 1 ≤ d.month ∧ d.month ≤ 12 ∧ 1 ≤ d.day ∧
    d.day ≤ daysInMonth d.year d.month ∧ d.hour ≤ 23 ∧ d.minute ≤ 59 ∧
    d.second ≤ 59 := by
  simp [PyDateTime.valid] at hv
  tauto

lemma valid_intro (d : PyDateTime) (h1 : 1 ≤ d.year) (h2 : d.year ≤ 9999)
    (h3 : 1 ≤ d.month) (h4 : d.month ≤ 12) (h5 : 1 ≤ d.day)
    (h6 : d.day ≤ daysInMonth d.year d.month) (h7 : d.hour ≤ 23)
    (h8 : d.minute ≤ 59) (h9 : d.second ≤ 59) : d.valid = true := by
  simp [PyDateTime.valid]
  tauto

/-- C6, counterexample: constructing a `Vacation` from a timestamp
with non-zero seconds stores those seconds (only the minute field is
floored), but the byte round trip drops them — so
`fromBytes(toBytes(v))` does not reproduce the stored floored value. -/
theorem vacation_seconds_dropped :
    Vacation.make (some ⟨2024, 6, 1, 10, 47, 30⟩) =
      ⟨some ⟨2024, 6, 1, 10, 30, 30⟩⟩ ∧
    Vacation.toBytes (Vacation.make (some ⟨2024, 6, 1, 10, 47, 30⟩)) =
      .ok [1, 24, 21, 6] ∧
    Vacation.fromBytes 1 24 21 6 = .ok ⟨some ⟨2024, 6, 1, 10, 30, 0⟩⟩ ∧
    Vacation.fromBytes 1 24 21 6 ≠
      .ok (Vacation.make (some ⟨2024, 6, 1, 10, 47, 30⟩)) := by decide

/-- C6 (amended): constructing with an end timestamp floors the minute
field to the nearest 30-minute boundary (seconds are preserved);
`fromBytes(toBytes(v))` reproduces the floored value with its seconds
cleared to zero — exactly the stored value whenever the timestamp's
seconds are zero; and a frame whose day byte is zero decodes to "no
vacation". Requires a byte-encodable year (2000–2255), since
`year - 2000` must fit a byte. -/
theorem vacation_roundtrip (d : PyDateTime) (hv : d.valid = true)
    (hy1 : 2000 ≤ d.year) (hy2 : d.year ≤ 2255) :
    (Vacation.make (some d)).until_ = some (floorMinutes d) ∧
    Vacation.toBytes (Vacation.make (some d)) =
      .ok [d.day, d.year - 2000,
           d.hour * 2 + (d.minute - d.minute % 30) / 30, d.month] ∧
    Vacation.fromBytes d.day (d.year - 2000)
        (d.hour * 2 + (d.minute - d.minute % 30) / 30) d.month =
      .ok ⟨some ⟨d.year, d.month, d.day, d.hour, d.minute - d.minute % 30, 0⟩⟩ ∧
    (∀ b1 b2 b3 : ℕ, Vacation.fromBytes 0 b1 b2 b3 = .ok ⟨none⟩) := by
  obtain ⟨h1, h2, h3, h4, h5, h6, h7, h8, h9⟩ := valid_facts d hv
  have hd31 : d.day ≤ 31 := h6.trans (daysInMonth_le _ _)
  refine ⟨rfl, ?_, ?_, ?_⟩
  · have hcond : ([(d.day : ℤ), (d.year : ℤ) - 2000,
        ((d.hour * 2 + (d.minute - d.minute % 30) / 30 : ℕ) : ℤ),
        (d.month : ℤ)].all
          (fun b => decide (0 ≤ b) && decide (b < 256))) = true := by
      simp only [List.all_cons, List.all_nil, Bool.and_true, Bool.and_eq_true,
        decide_eq_true_eq]
      omega
    simp only [Vacation.make, Option.map, floorMinutes, Vacation.toBytes,
      bytearrayOf, hcond, if_true]
    simp only [List.map_cons, List.map_nil, Int.toNat_natCast,
      Except.ok.injEq, List.cons.injEq, and_true, true_and]
    omega
  · have hpos : d.day > 0 := h5
    have e1 : 2000 + (d.year - 2000) = d.year := by omega
    have e2 : (d.hour * 2 + (d.minute - d.minute % 30) / 30) / 2 = d.hour := by
      omega
    have e3 : (d.hour * 2 + (d.minute - d.minute % 30) / 30) % 2 * 30 =
        d.minute - d.minute % 30 := by omega
    have hval : PyDateTime.valid
        ⟨d.year, d.month, d.day, d.hour, d.minute - d.minute % 30, 0⟩ = true :=
      valid_intro _ h1 h2 h3 h4 h5 h6 h7
        (show d.minute - d.minute % 30 ≤ 59 by omega)
        (show (0 : ℕ) ≤ 59 by omega)
    have hmake : PyDateTime.make (2000 + (d.year - 2000)) d.month d.day
        ((d.hour * 2 + (d.minute - d.minute % 30) / 30) / 2)
        ((d.hour * 2 + (d.minute - d.minute % 30) / 30) % 2 * 30) 0 =
        .ok ⟨d.year, d.month, d.day, d.hour, d.minute - d.minute % 30, 0⟩ := by
      rw [e1, e2, e3]
      simp only [PyDateTime.make, hval, if_true]
    show Vacation.fromBytes d.day (d.year - 2000)
        (d.hour * 2 + (d.minute - d.minute % 30) / 30) d.month = _
    rw [Vacation.fromBytes, if_pos hpos]
    rw [hmake]
    rfl
  · intro b1 b2 b3
    simp [Vacation.fromBytes]

/-- C6 witness at 2024-06-01 10:47:00 (zero seconds). -/
theorem vacation_roundtrip_witness :
    (PyDateTime.valid ⟨2024, 6, 1, 10, 47, 0⟩ = true ∧
      2000 ≤ (2024 : ℕ) ∧ (2024 : ℕ) ≤ 2255) ∧
    Vacation.toBytes (Vacation.make (some ⟨2024, 6, 1, 10, 47, 0⟩)) =
      .ok [1, 24, 21, 6] ∧
    Vacation.fromBytes 1 24 21 6 = .ok ⟨some ⟨2024, 6, 1, 10, 30, 0⟩⟩ :=
  ⟨⟨by decide, by decide, by decide⟩,
   (vacation_roundtrip ⟨2024, 6, 1, 10, 47, 0⟩ (by decide) (by decide) (by decide)).2.1,
   (vacation_roundtrip ⟨2024, 6, 1, 10, 47, 0⟩ (by decide) (by decide) (by decide)).2.2.1⟩

end Eqiva

namespace Eqiva

lemma onNotify_status10 (st : DeviceState) (b2 b3 b4 b5 b6 b7 b8 b9 : ℕ) :
    Thermostat.onNotify st [2, 1, b2, b3, b4, b5, b6, b7, b8, b9] =
      (Vacation.fromBytes b6 b7 b8 b9).map (fun v =>
        { st with mode := some ⟨b2⟩, valve := some b3,
                  temperature := some (Temperature.fromByte b5),
                  vacation := some v,
                  openWindowConfig := none, comfortTemperature := none,
                  ecoTemperature := none, offsetTemperature := none }) := by
  cases hvk : Vacation.fromBytes b6 b7 b8 b9 with
  | ok v =>
      simp [Thermostat.onNotify, startsWith, NOTIFY_SERIAL, NOTIFY_STATUS,
        nth, hvk, Bind.bind, Except.bind, Except.map, pure, Except.pure]
  | error e =>
      simp [Thermostat.onNotify, startsWith, NOTIFY_SERIAL, NOTIFY_STATUS,
        nth, hvk, Bind.bind, Except.bind, Except.map, pure, Except.pure]

lemma onNotify_status15 (st : DeviceState)
    (b2 b3 b4 b5 b6 b7 b8 b9 b10 b11 b12 b13 b14 : ℕ) :
    Thermostat.onNotify st
        [2, 1, b2, b3, b4, b5, b6, b7, b8, b9, b10, b11, b12, b13, b14] =
      (Vacation.fromBytes b6 b7 b8 b9).map (fun v =>
        { st with mode := some ⟨b2⟩, valve := some b3,
                  temperature := some (Temperature.fromByte b5),
                  vacation := some v,
                  openWindowConfig := some (OpenWindowConfig.fromBytes b10 b11),
                  comfortTemperature := some (Temperature.fromByte b12),
                  ecoTemperature := some (Temperature.fromByte b13),
                  offsetTemperature := some (Temperature.fromByte ((b14 : ℤ) - 7)) }) := by
  cases hvk : Vacation.fromBytes b6 b7 b8 b9 with
  | ok v =>
      simp [Thermostat.onNotify, startsWith, NOTIFY_SERIAL, NOTIFY_STATUS,
        nth, hvk, Bind.bind, Except.bind, Except.map, pure, Except.pure]
  | error e =>
      simp [Thermostat.onNotify, startsWith, NOTIFY_SERIAL, NOTIFY_STATUS,
        nth, hvk, Bind.bind, Except.bind, Except.map, pure, Except.pure]

/-- C3, counterexample: decoding a legacy short (10-byte) STATUS frame
into a state whose optional fields are populated clears all four of
them to `None` instead of leaving them at their previous values — and
it does so with the device's firmware version unknown (`firmware :=
none`), i.e. decided by frame length alone. -/
theorem status_short_frame_clears_fields :
    (Thermostat.onNotify
        { openWindowConfig := some (OpenWindowConfig.fromBytes 24 2),
          comfortTemperature := some (Temperature.fromByte 42),
          ecoTemperature := some (Temperature.fromByte 34),
          offsetTemperature := some (Temperature.fromByte 3) }
        [2, 1, 9, 50, 4, 42, 0, 0, 0, 0]).map
      (fun st => (st.openWindowConfig, st.comfortTemperature,
                  st.ecoTemperature, st.offsetTemperature)) =
      .ok (none, none, none, none) ∧
    some (OpenWindowConfig.fromBytes 24 2) ≠ (none : Option OpenWindowConfig) := by
  constructor
  · decide
  · intro h
    exact Option.noConfusion h

/-- C3 (amended): `onNotify` decides the presence of the optional
device-state fields by the frame length test `len(bytes) == 15` alone
(the stored firmware version is irrelevant: the prior state `st` is
arbitrary): a successfully decoded short 10-byte STATUS frame
*clears* `openWindowConfig`, `comfortTemperature`, `ecoTemperature`
and `offsetTemperature` to `None` rather than leaving them at their
previous values, while a 15-byte frame populates all four. -/
theorem status_frame_length_decides :
    (∀ (st st' : DeviceState) (b2 b3 b4 b5 b6 b7 b8 b9 : ℕ),
        Thermostat.onNotify st [2, 1, b2, b3, b4, b5, b6, b7, b8, b9] = .ok st' →
        st'.openWindowConfig = none ∧ st'.comfortTemperature = none ∧
        st'.ecoTemperature = none ∧ st'.offsetTemperature = none) ∧
    (∀ (st st' : DeviceState)
        (b2 b3 b4 b5 b6 b7 b8 b9 b10 b11 b12 b13 b14 : ℕ),
        Thermostat.onNotify st
            [2, 1, b2, b3, b4, b5, b6, b7, b8, b9, b10, b11, b12, b13, b14] =
          .ok st' →
        st'.openWindowConfig = some (OpenWindowConfig.fromBytes b10 b11) ∧
        st'.comfortTemperature = some (Temperature.fromByte b12) ∧
        st'.ecoTemperature = some (Temperature.fromByte b13) ∧
        st'.offsetTemperature = some (Temperature.fromByte ((b14 : ℤ) - 7))) := by
  constructor
  · intro st st' b2 b3 b4 b5 b6 b7 b8 b9 h
    rw [onNotify_status10] at h
    cases hvk : Vacation.fromBytes b6 b7 b8 b9 with
    | ok v =>
        rw [hvk] at h
        simp only [Except.map, Except.ok.injEq] at h
        rw [← h]
        exact ⟨rfl, rfl, rfl, rfl⟩
    | error e =>
        rw [hvk] at h
        simp only [Except.map] at h
        exact Except.noConfusion h
  · intro st st' b2 b3 b4 b5 b6 b7 b8 b9 b10 b11 b12 b13 b14 h
    rw [onNotify_status15] at h
    cases hvk : Vacation.fromBytes b6 b7 b8 b9 with
    | ok v =>
        rw [hvk] at h
        simp only [Except.map, Except.ok.injEq] at h
        rw [← h]
        exact ⟨rfl, rfl, rfl, rfl⟩
    | error e =>
        rw [hvk] at h
        simp only [Except.map] at h
        exact Except.noConfusion h

/-- C3 witness for the amended statement: a concrete decoded short
frame on a fresh state. -/
theorem status_frame_length_decides_witness :
    ({ mode := some ⟨9⟩, valve := some 50,
       temperature := some (Temperature.fromByte 42),
       vacation := some ⟨none⟩,
       openWindowConfig := none, comfortTemperature := none,
       ecoTemperature := none, offsetTemperature := none
       : DeviceState }).openWindowConfig = none ∧
    ({ mode := some ⟨9⟩, valve := some 50,
       temperature := some (Temperature.fromByte 42),
       vacation := some ⟨none⟩,
       openWindowConfig := none, comfortTemperature := none,
       ecoTemperature := none, offsetTemperature := none
       : DeviceState }).comfortTemperature = none ∧
    ({ mode := some ⟨9⟩, valve := some 50,
       temperature := some (Temperature.fromByte 42),
       vacation := some ⟨none⟩,
       openWindowConfig := none, comfortTemperature := none,
       ecoTemperature := none, offsetTemperature := none
       : DeviceState }).ecoTemperature = none ∧
    ({ mode := some ⟨9⟩, valve := some 50,
       temperature := some (Temperature.fromByte 42),
       vacation := some ⟨none⟩,
       openWindowConfig := none, comfortTemperature := none,
       ecoTemperature := none, offsetTemperature := none
       : DeviceState }).offsetTemperature = none :=
  status_frame_length_decides.1 {} _ 9 50 4 42 0 0 0 0 (by rfl)

end Eqiva

namespace Eqiva

end Eqiva
